import Mathlib

/-!
Verification of the BlackHoleSim physics modules.

The definitions below are a shallow embedding, over the real numbers, of
the pure functions in src/js/physics (constants.js, velocity.js,
bowshock.js, wake.js, shockvel.js, energetics.js).  Machine floats are
modelled by real numbers; Math.sin, Math.cos, Math.exp, Math.sqrt,
Math.asinh and Math.pow on a positive base are modelled by the
corresponding real functions.
-/

noncomputable section

namespace BlackHoleSim

/-- Unit conversion helper degToRad from constants.js. -/
def degToRad (deg : ℝ) : ℝ := deg * Real.pi / 180

/-- Meters per kiloparsec, constant KPC from constants.js. -/
def KPC : ℝ := 3.086e19

/-- Meters per second for one km per second, constant KM_S from constants.js. -/
def KM_S : ℝ := 1e3

/-- Seconds per megayear, constant MYR from constants.js. -/
def MYR : ℝ := 3.156e13

/-- Kilograms per solar mass, constant M_SUN from constants.js. -/
def M_SUN : ℝ := 1.989e30

/-- A parameter snapshot: every field read from the params object by some
physics function.  In the JavaScript source a missing field falls back to
the DEFAULTS table; here a snapshot always carries every field, which
covers both cases since the claims quantify over all parameter sets. -/
structure Params where
  v_star : ℝ
  i : ℝ
  chi : ℝ
  theta : ℝ
  p : ℝ
  R_ring : ℝ
  v0 : ℝ
  r_star : ℝ
  dr_delay : ℝ
  l_mix : ℝ
  R_c : ℝ
  R_0 : ℝ
  T_cgm : ℝ
  rho_ext : ℝ
  wake_length : ℝ
  t_wake : ℝ
  epsilon : ℝ

/-- The DEFAULTS table of constants.js, as one concrete parameter snapshot
with the epsilon efficiency factor at its fallback value 1.0. -/
def defaultParams : Params :=
  { v_star := 954
    i := 29
    chi := 3.0
    theta := 55
    p := 1.0
    R_ring := 1.5
    v0 := -301
    r_star := 62
    dr_delay := 16
    l_mix := 26
    R_c := 1.8
    R_0 := 1.2
    T_cgm := 1e6
    rho_ext := 1.67e-25
    wake_length := 62
    t_wake := 73
    epsilon := 1.0 }

/-- Eq 3 of velocity.js: wake baseline line-of-sight velocity
v_star (1 - 1 / chi) sin(i). -/
def wakeLOSVelocity (v_star chi i_deg : ℝ) : ℝ :=
  v_star * (1 - 1 / chi) * Real.sin (degToRad i_deg)

/-- Eq 6 of velocity.js: azimuthal averaging factor. -/
def azimuthalAverage (xi : ℝ) : ℝ :=
  if |xi| ≥ 0.999 then 1.0
  else if |xi| < 0.001 then 0.0
  else (xi / Real.sqrt (1 - xi * xi)) * Real.arsinh (Real.sqrt (1 - xi * xi) / |xi|)

/-- Midpoint sample angle of iteration k of the quadrature loop in
limbBrighteningWeight of velocity.js, with N = 80. -/
def limbPhi (k : ℕ) : ℝ := -(Real.pi / 2) + Real.pi * ((k : ℝ) + 0.5) / 80

/-- Chord weight d of the quadrature loop body in velocity.js. -/
def limbD (absXi phi : ℝ) : ℝ :=
  Real.sqrt (absXi * absXi * Real.cos phi * Real.cos phi + Real.sin phi * Real.sin phi)

/-- Emissivity sample eps of the quadrature loop body in velocity.js. -/
def limbEps (absXi p : ℝ) (k : ℕ) : ℝ :=
  Real.rpow (max (limbD absXi (limbPhi k)) 0.01) (-p)

/-- Eq 7 of velocity.js: limb brightening weight W_p.  The JavaScript
accumulation loop over k = 0..79 is rendered as two finite sums. -/
def limbBrighteningWeight (xi p : ℝ) : ℝ :=
  if |xi| ≥ 0.999 then 1.0
  else if |p| < 0.01 then 1.0
  else
    let sumNum := ∑ k ∈ Finset.range 80, limbEps |xi| p k * Real.cos (limbPhi k)
    let sumDen := ∑ k ∈ Finset.range 80, limbEps |xi| p k
    if sumDen < 1e-10 then 1.0 else sumNum / sumDen

/-- Eq 8 of velocity.js: full PV model velocity at projected position x. -/
def pvModelVelocity (x_kpc : ℝ) (params : Params) : ℝ :=
  let i := degToRad params.i
  let theta := degToRad params.theta
  let v_wake := wakeLOSVelocity params.v_star params.chi params.i
  let xi := x_kpc / params.R_ring
  if |xi| ≥ 1.0 then -v_wake
  else
    -v_wake + params.v_star * Real.sin theta * Real.cos theta * Real.cos i *
      azimuthalAverage xi * limbBrighteningWeight xi params.p

/-- Wilkin bow shock shape wilkinR from bowshock.js, including its three
guard branches. -/
def wilkinR (theta R0 : ℝ) : ℝ :=
  if theta ≤ 0.001 then R0
  else if theta ≥ Real.pi - 0.001 then
    R0 * Real.sqrt (3 * Real.pi) / Real.sin (Real.pi - 0.001)
  else
    let inner := 3 * (1 - theta * Real.cos theta / Real.sin theta)
    if inner < 0 then R0 else R0 * (1 / Real.sin theta) * Real.sqrt inner

/-- Modelled from the spec: the closed-form Wilkin shape
R0 csc(theta) sqrt(3 (1 - theta cot(theta))) that the spec says the far
side clamp of shockRadius evaluates at the clamped angle.  Written from
the spec sentence so it can be compared against the code branch. -/
def wilkinClosedForm (theta R0 : ℝ) : ℝ :=
  R0 * (1 / Real.sin theta) *
    Real.sqrt (3 * (1 - theta * (Real.cos theta / Real.sin theta)))

/-- Standoff radius from bowshock.js. -/
def standoffRadius (R_c : ℝ) : ℝ := 2 / 3 * R_c

/-- Eq 19 of wake.js: delayed-mixing wake velocity. -/
def wakeVelocity (r : ℝ) (params : Params) : ℝ :=
  params.v0 * Real.exp (-(max 0 ((params.r_star - r) - params.dr_delay)) / params.l_mix)

/-- Eq 13 of shockvel.js: shock velocity versus position, with the
ahead-of-apex branch and the nonpositive-base guard. -/
def shockVelocity (r : ℝ) (params : Params) : ℝ :=
  if params.r_star - r < 0 then params.v_star
  else if 1 + 2 * (params.r_star - r) / params.R_c ≤ 0 then 0
  else params.v_star * Real.rpow (1 + 2 * (params.r_star - r) / params.R_c) (-0.5)

/-- Sound speed in the CGM from constants.js. -/
def soundSpeed (T : ℝ) : ℝ := 0.013 * Real.sqrt T

/-- Mach number from constants.js. -/
def machNumber (v_star T : ℝ) : ℝ := v_star / soundSpeed T

/-- Eq 23 of energetics.js: BH mass estimate from momentum balance. -/
def bhMassEstimate (params : Params) : ℝ :=
  2 * params.epsilon * params.rho_ext * (params.v_star * KM_S) * Real.pi *
    (params.R_0 * KPC) * (params.R_0 * KPC) * (params.t_wake * MYR) / M_SUN

/-- Wake age from energetics.js. -/
def wakeAge (params : Params) : ℝ :=
  params.wake_length * KPC / (params.v_star * KM_S * Real.cos (degToRad params.i)) / MYR

/-- Standoff radius derivation of energetics.js. -/
def standoffFromRc (R_c : ℝ) : ℝ := 2 / 3 * R_c

/-- Output record of computeDashboard in energetics.js. -/
structure Dashboard where
  M_BH : ℝ
  R_0 : ℝ
  R_c : ℝ
  mach : ℝ
  c_s : ℝ
  t_wake : ℝ
  v_shock_tip : ℝ
  v_los_wake : ℝ
  v_frac_c : ℝ
  v_star : ℝ

/-- computeDashboard from energetics.js: all derived dashboard quantities. -/
def computeDashboard (params : Params) : Dashboard :=
  let R0 := standoffFromRc params.R_c
  let cs := soundSpeed params.T_cgm
  let mach := machNumber params.v_star params.T_cgm
  let age := wakeAge { params with R_0 := R0 }
  let mass := bhMassEstimate { params with R_0 := R0, t_wake := age }
  { M_BH := mass
    R_0 := R0
    R_c := params.R_c
    mach := mach
    c_s := cs
    t_wake := age
    v_shock_tip := params.v_star
    v_los_wake := params.v_star * (1 - 1 / params.chi) * Real.sin (degToRad params.i)
    v_frac_c := params.v_star / 2.998e5
    v_star := params.v_star }

/-- The chord weight at absolute position abs xi equals the spec form
written with xi squared. -/
lemma limbD_abs (xi phi : ℝ) :
    limbD |xi| phi = Real.sqrt (xi ^ 2 * Real.cos phi ^ 2 + Real.sin phi ^ 2) := by
  unfold limbD
  congr 1
  rw [abs_mul_abs_self]
  ring

/-- The emissivity sample at absolute position abs xi equals the spec form
written with xi squared and the midpoint angle spelled out. -/
lemma limbEps_eq (xi p : ℝ) (k : ℕ) :
    limbEps |xi| p k =
      Real.rpow
        (max (Real.sqrt (xi ^ 2 *
          Real.cos (-(Real.pi / 2) + Real.pi * ((k : ℝ) + 0.5) / 80) ^ 2 +
          Real.sin (-(Real.pi / 2) + Real.pi * ((k : ℝ) + 0.5) / 80) ^ 2)) 0.01) (-p) := by
  unfold limbEps
  rw [limbD_abs]
  rfl

/-- For angles strictly between 0 and pi, theta cos(theta) stays below
sin(theta); this is the positivity core of the Wilkin shape. -/
lemma mul_cos_lt_sin {x : ℝ} (h0 : 0 < x) (hpi : x < Real.pi) :
    x * Real.cos x < Real.sin x := by
  rcases lt_trichotomy x (Real.pi / 2) with h | h | h
  · have hc : 0 < Real.cos x :=
      Real.cos_pos_of_mem_Ioo ⟨by linarith [Real.pi_pos], h⟩
    have ht := Real.lt_tan h0 h
    rw [Real.tan_eq_sin_div_cos] at ht
    exact (lt_div_iff hc).mp ht
  · rw [h, Real.cos_pi_div_two, Real.sin_pi_div_two, mul_zero]
    norm_num
  · have hc : Real.cos x < 0 :=
      Real.cos_neg_of_pi_div_two_lt_of_lt h (by linarith [Real.pi_pos])
    have hs : 0 < Real.sin x := Real.sin_pos_of_pos_of_lt_pi h0 hpi
    nlinarith

/-- C1: pvModelVelocity computes xi = x / R_ring and returns exactly the
negated wake baseline when the absolute value of xi is at least 1.0, and
otherwise the negated wake baseline plus
v_star sin(theta) cos(theta) cos(i) times the azimuthal average and the
limb brightening weight, where theta and i come from the parameter set in
degrees and are converted to radians, not derived from x. -/
theorem pvModelVelocity_spec (x : ℝ) (params : Params) :
    pvModelVelocity x params =
      if |x / params.R_ring| ≥ 1.0 then
        -(wakeLOSVelocity params.v_star params.chi params.i)
      else
        -(wakeLOSVelocity params.v_star params.chi params.i) +
          params.v_star * Real.sin (degToRad params.theta) *
            Real.cos (degToRad params.theta) * Real.cos (degToRad params.i) *
            azimuthalAverage (x / params.R_ring) *
            limbBrighteningWeight (x / params.R_ring) params.p := rfl

/-- C4: wakeVelocity equals v0 exp(-(max 0 ((r_star - r) - dr_delay)) / l_mix)
for every input, and at r = r_star with a nonnegative delay and positive
mixing length it returns v0 exactly. -/
theorem wakeVelocity_spec (r : ℝ) (params : Params)
    (hd : 0 ≤ params.dr_delay) (hl : 0 < params.l_mix) :
    wakeVelocity r params =
      params.v0 * Real.exp (-(max 0 ((params.r_star - r) - params.dr_delay)) / params.l_mix) ∧
    wakeVelocity params.r_star params = params.v0 := by
  constructor
  · rfl
  · unfold wakeVelocity
    have h0 : max 0 ((params.r_star - params.r_star) - params.dr_delay) = 0 :=
      max_eq_left (by linarith)
    rw [h0]
    simp

/-- Witness for C4 at the DEFAULTS parameter snapshot. -/
theorem wakeVelocity_spec_witness :
    0 ≤ defaultParams.dr_delay ∧ 0 < defaultParams.l_mix ∧
      wakeVelocity defaultParams.r_star defaultParams = defaultParams.v0 :=
  ⟨by norm_num [defaultParams], by norm_num [defaultParams],
    (wakeVelocity_spec 0 defaultParams (by norm_num [defaultParams])
      (by norm_num [defaultParams])).2⟩

/-- C5: shockVelocity returns v_star unchanged ahead of the apex, returns
v_star times (1 + 2 (r_star - r) / R_c) to the power -0.5 at or behind the
apex when that base is positive, and returns 0 at or behind the apex when
the base is nonpositive. -/
theorem shockVelocity_spec (r : ℝ) (params : Params) :
    (params.r_star < r → shockVelocity r params = params.v_star) ∧
    (r ≤ params.r_star → 0 < 1 + 2 * (params.r_star - r) / params.R_c →
      shockVelocity r params =
        params.v_star * Real.rpow (1 + 2 * (params.r_star - r) / params.R_c) (-0.5)) ∧
    (r ≤ params.r_star → 1 + 2 * (params.r_star - r) / params.R_c ≤ 0 →
      shockVelocity r params = 0) := by
  unfold shockVelocity
  refine ⟨fun h => ?_, fun h hf => ?_, fun h hf => ?_⟩
  · rw [if_pos (by linarith : params.r_star - r < 0)]
  · rw [if_neg (by push_neg; linarith : ¬ params.r_star - r < 0),
      if_neg (by push_neg; linarith :
        ¬ 1 + 2 * (params.r_star - r) / params.R_c ≤ 0)]
  · rw [if_neg (by push_neg; linarith : ¬ params.r_star - r < 0), if_pos hf]

/-- Witness for C5 at the DEFAULTS parameter snapshot: ahead of the apex
the DEFAULTS velocity 954 is returned unchanged, and behind the apex with
positive base the power-law branch is taken. -/
theorem shockVelocity_spec_witness :
    defaultParams.r_star < 70 ∧ shockVelocity 70 defaultParams = defaultParams.v_star :=
  ⟨by norm_num [defaultParams],
    (shockVelocity_spec 70 defaultParams).1 (by norm_num [defaultParams])⟩

/-- C7: the standoff radius derivation is one consistent definition:
standoffRadius in bowshock.js and standoffFromRc in energetics.js agree
and both equal two thirds of R_c, and the R_0 field reported by
computeDashboard equals two thirds of the R_c parameter. -/
theorem standoff_consistency :
    (∀ R_c : ℝ, standoffRadius R_c = standoffFromRc R_c ∧
      standoffRadius R_c = 2 / 3 * R_c) ∧
    (∀ params : Params, (computeDashboard params).R_0 = 2 / 3 * params.R_c) :=
  ⟨fun _ => ⟨rfl, rfl⟩, fun _ => rfl⟩

/-- C8: computeDashboard is deterministic: two calls on equal parameter
snapshots agree in every reported output field. -/
theorem computeDashboard_deterministic (pa pb : Params) (h : pa = pb) :
    (computeDashboard pa).M_BH = (computeDashboard pb).M_BH ∧
    (computeDashboard pa).R_0 = (computeDashboard pb).R_0 ∧
    (computeDashboard pa).mach = (computeDashboard pb).mach ∧
    (computeDashboard pa).c_s = (computeDashboard pb).c_s ∧
    (computeDashboard pa).t_wake = (computeDashboard pb).t_wake ∧
    (computeDashboard pa).v_shock_tip = (computeDashboard pb).v_shock_tip ∧
    (computeDashboard pa).v_los_wake = (computeDashboard pb).v_los_wake ∧
    (computeDashboard pa).v_frac_c = (computeDashboard pb).v_frac_c := by
  subst h
  exact ⟨rfl, rfl, rfl, rfl, rfl, rfl, rfl, rfl⟩

/-- Witness for C8 at the DEFAULTS parameter snapshot. -/
theorem computeDashboard_deterministic_witness :
    (computeDashboard defaultParams).M_BH = (computeDashboard defaultParams).M_BH ∧
    (computeDashboard defaultParams).R_0 = (computeDashboard defaultParams).R_0 ∧
    (computeDashboard defaultParams).mach = (computeDashboard defaultParams).mach ∧
    (computeDashboard defaultParams).c_s = (computeDashboard defaultParams).c_s ∧
    (computeDashboard defaultParams).t_wake = (computeDashboard defaultParams).t_wake ∧
    (computeDashboard defaultParams).v_shock_tip = (computeDashboard defaultParams).v_shock_tip ∧
    (computeDashboard defaultParams).v_los_wake = (computeDashboard defaultParams).v_los_wake ∧
    (computeDashboard defaultParams).v_frac_c = (computeDashboard defaultParams).v_frac_c :=
  computeDashboard_deterministic defaultParams defaultParams rfl

/-- C2: limbBrighteningWeight returns 1.0 when the absolute value of xi is
at least 0.999, returns 1.0 when the absolute value of p is below 0.01,
and otherwise equals the ratio of the emissivity-weighted cosine sum to
the emissivity sum over the 80 midpoint samples
phi k = -pi/2 + pi (k + 0.5) / 80, with chord weight
d = sqrt(xi^2 cos^2 phi + sin^2 phi) and emissivity max(d, 0.01)^(-p),
falling back to 1.0 when the denominator sum is below 1e-10. -/
theorem limbBrighteningWeight_spec (xi p : ℝ) :
    (|xi| ≥ 0.999 → limbBrighteningWeight xi p = 1.0) ∧
    (|p| < 0.01 → limbBrighteningWeight xi p = 1.0) ∧
    (|xi| < 0.999 → 0.01 ≤ |p| →
      limbBrighteningWeight xi p =
        if (∑ k ∈ Finset.range 80,
              Real.rpow
                (max (Real.sqrt (xi ^ 2 *
                  Real.cos (-(Real.pi / 2) + Real.pi * ((k : ℝ) + 0.5) / 80) ^ 2 +
                  Real.sin (-(Real.pi / 2) + Real.pi * ((k : ℝ) + 0.5) / 80) ^ 2)) 0.01)
                (-p)) < 1e-10
        then 1.0
        else
          (∑ k ∈ Finset.range 80,
              Real.rpow
                (max (Real.sqrt (xi ^ 2 *
                  Real.cos (-(Real.pi / 2) + Real.pi * ((k : ℝ) + 0.5) / 80) ^ 2 +
                  Real.sin (-(Real.pi / 2) + Real.pi * ((k : ℝ) + 0.5) / 80) ^ 2)) 0.01)
                (-p) *
              Real.cos (-(Real.pi / 2) + Real.pi * ((k : ℝ) + 0.5) / 80)) /
          (∑ k ∈ Finset.range 80,
              Real.rpow
                (max (Real.sqrt (xi ^ 2 *
                  Real.cos (-(Real.pi / 2) + Real.pi * ((k : ℝ) + 0.5) / 80) ^ 2 +
                  Real.sin (-(Real.pi / 2) + Real.pi * ((k : ℝ) + 0.5) / 80) ^ 2)) 0.01)
                (-p))) := by
  refine ⟨fun hxi => ?_, fun hp => ?_, fun hxi hp => ?_⟩
  · unfold limbBrighteningWeight
    rw [if_pos hxi]
  · unfold limbBrighteningWeight
    by_cases hxi : |xi| ≥ 0.999
    · rw [if_pos hxi]
    · rw [if_neg hxi, if_pos hp]
  · unfold limbBrighteningWeight
    rw [if_neg (by push_neg; exact hxi), if_neg (by push_neg; exact hp)]
    have hden : (∑ k ∈ Finset.range 80, limbEps |xi| p k) =
        ∑ k ∈ Finset.range 80,
          Real.rpow
            (max (Real.sqrt (xi ^ 2 *
              Real.cos (-(Real.pi / 2) + Real.pi * ((k : ℝ) + 0.5) / 80) ^ 2 +
              Real.sin (-(Real.pi / 2) + Real.pi * ((k : ℝ) + 0.5) / 80) ^ 2)) 0.01) (-p) :=
      Finset.sum_congr rfl fun k _ => limbEps_eq xi p k
    have hnum : (∑ k ∈ Finset.range 80, limbEps |xi| p k * Real.cos (limbPhi k)) =
        ∑ k ∈ Finset.range 80,
          Real.rpow
            (max (Real.sqrt (xi ^ 2 *
              Real.cos (-(Real.pi / 2) + Real.pi * ((k : ℝ) + 0.5) / 80) ^ 2 +
              Real.sin (-(Real.pi / 2) + Real.pi * ((k : ℝ) + 0.5) / 80) ^ 2)) 0.01) (-p) *
          Real.cos (-(Real.pi / 2) + Real.pi * ((k : ℝ) + 0.5) / 80) :=
      Finset.sum_congr rfl fun k _ => by rw [limbEps_eq xi p k]; rfl
    dsimp only
    rw [hden, hnum]

/-- Witness for C2: saturation at xi = 2 and the uniform emissivity
short-circuit at p = 0. -/
theorem limbBrighteningWeight_spec_witness :
    limbBrighteningWeight 2 7 = 1.0 ∧ limbBrighteningWeight 0.5 0 = 1.0 :=
  ⟨(limbBrighteningWeight_spec 2 7).1 (by rw [abs_two]; norm_num),
    (limbBrighteningWeight_spec 0.5 0).2.1 (by rw [abs_zero]; norm_num)⟩

/-- C9: for every angle strictly between 0 and pi and every positive R0
the Wilkin shape value is strictly positive, and at or below the apex
epsilon it equals R0 exactly. -/
theorem wilkinR_pos (theta R0 : ℝ) (hR : 0 < R0) :
    (0 < theta → theta < Real.pi → 0 < wilkinR theta R0) ∧
    (theta ≤ 0.001 → wilkinR theta R0 = R0) := by
  constructor
  · intro h0 hpi
    unfold wilkinR
    dsimp only
    split_ifs with h1 h2 h3
    · exact hR
    · have hs : 0 < Real.sin (Real.pi - 0.001) := by
        rw [Real.sin_pi_sub]
        exact Real.sin_pos_of_pos_of_lt_pi (by norm_num) (by linarith [Real.pi_gt_d2])
      have hq : 0 < Real.sqrt (3 * Real.pi) :=
        Real.sqrt_pos.mpr (by positivity)
      exact div_pos (mul_pos hR hq) hs
    · exact hR
    · have hsin : 0 < Real.sin theta := Real.sin_pos_of_pos_of_lt_pi h0 hpi
      have hlt : theta * Real.cos theta < Real.sin theta := mul_cos_lt_sin h0 hpi
      have hinner : 0 < 3 * (1 - theta * Real.cos theta / Real.sin theta) := by
        have hdiv : theta * Real.cos theta / Real.sin theta < 1 := (div_lt_one hsin).mpr hlt
        linarith
      exact mul_pos (mul_pos hR (one_div_pos.mpr hsin)) (Real.sqrt_pos.mpr hinner)
  · intro h
    unfold wilkinR
    rw [if_pos h]

/-- Witness for C9 at theta = 1, R0 = 1 and at the apex branch. -/
theorem wilkinR_pos_witness :
    0 < wilkinR 1 1 ∧ wilkinR 0.0005 1 = 1 :=
  ⟨(wilkinR_pos 1 1 one_pos).1 one_pos (by linarith [Real.pi_gt_d2]),
    (wilkinR_pos 0.0005 1 one_pos).2 (by norm_num)⟩

/-- C10: on the unsaturated interior the azimuthal average is odd, so it
is negative at negative interior positions, while every position at or
below -0.999 takes the saturation branch and returns +1.0, producing a
sign jump at the negative aperture edge. -/
theorem azimuthalAverage_odd_neg_edge (xi : ℝ) (h1 : 0.001 ≤ xi) (h2 : xi < 0.999) :
    azimuthalAverage (-xi) = -azimuthalAverage xi ∧
    azimuthalAverage (-xi) < 0 ∧
    ∀ y : ℝ, y ≤ -0.999 → azimuthalAverage y = 1.0 := by
  have hx0 : 0 < xi := by linarith
  have habs : |xi| = xi := abs_of_pos hx0
  have habsneg : |(-xi)| = xi := by rw [abs_neg, habs]
  have hposval : 0 < azimuthalAverage xi := by
    unfold azimuthalAverage
    rw [habs, if_neg (by push_neg; exact h2), if_neg (by push_neg; exact h1)]
    have hsq : xi * xi < 1 := by nlinarith
    have hs : 0 < Real.sqrt (1 - xi * xi) := Real.sqrt_pos.mpr (by linarith)
    exact mul_pos (div_pos hx0 hs) (Real.arsinh_pos_iff.mpr (div_pos hs hx0))
  have hodd : azimuthalAverage (-xi) = -azimuthalAverage xi := by
    unfold azimuthalAverage
    rw [habs, habsneg, if_neg (by push_neg; exact h2), if_neg (by push_neg; exact h1),
      if_neg (by push_neg; exact h2), if_neg (by push_neg; exact h1), neg_mul_neg]
    ring
  refine ⟨hodd, by rw [hodd]; linarith, fun y hy => ?_⟩
  unfold azimuthalAverage
  rw [if_pos (le_abs.mpr (Or.inr (by linarith)))]

/-- Witness for C10 at interior position 0.5 and saturated position -1. -/
theorem azimuthalAverage_odd_neg_edge_witness :
    azimuthalAverage (-0.5) < 0 ∧ azimuthalAverage (-1) = 1.0 :=
  ⟨(azimuthalAverage_odd_neg_edge 0.5 (by norm_num) (by norm_num)).2.1,
    (azimuthalAverage_odd_neg_edge 0.5 (by norm_num) (by norm_num)).2.2 (-1) (by norm_num)⟩

/-- The azimuthal average vanishes on the central dead zone. -/
lemma azimuthalAverage_zero_of_small {x : ℝ} (h : |x| < 0.001) :
    azimuthalAverage x = 0 := by
  unfold azimuthalAverage
  rw [if_neg (by push_neg; linarith), if_pos h]
  norm_num

/-- The azimuthal average is strictly positive at the inner edge 0.001 of
the formula branch. -/
lemma azimuthalAverage_milli_pos : 0 < azimuthalAverage 0.001 := by
  unfold azimuthalAverage
  have habs : |(0.001 : ℝ)| = 0.001 := abs_of_pos (by norm_num)
  rw [habs, if_neg (by norm_num), if_neg (by norm_num)]
  have hs : 0 < Real.sqrt (1 - (0.001 : ℝ) * 0.001) := Real.sqrt_pos.mpr (by norm_num)
  exact mul_pos (div_pos (by norm_num) hs)
    (Real.arsinh_pos_iff.mpr (div_pos hs (by norm_num)))

/-- The azimuthal average is not continuous on the open unit interval: it
is identically 0 left of 0.001 and strictly positive at 0.001. -/
lemma azimuthalAverage_not_contOn :
    ¬ ContinuousOn azimuthalAverage (Set.Ioo (0 : ℝ) 1) := by
  intro h
  have hmem : (0.001 : ℝ) ∈ Set.Ioo (0 : ℝ) 1 := by constructor <;> norm_num
  have hc : ContinuousWithinAt azimuthalAverage (Set.Ioo (0 : ℝ) 1) 0.001 := h _ hmem
  have hsub : Set.Ioo (0 : ℝ) 0.001 ⊆ Set.Ioo (0 : ℝ) 1 := fun x hx =>
    ⟨hx.1, hx.2.trans (by norm_num)⟩
  have h1 : Filter.Tendsto azimuthalAverage (nhdsWithin 0.001 (Set.Ioo (0 : ℝ) 0.001))
      (nhds (azimuthalAverage 0.001)) := hc.mono_left (nhdsWithin_mono _ hsub)
  have h2 : Filter.Tendsto azimuthalAverage (nhdsWithin 0.001 (Set.Ioo (0 : ℝ) 0.001))
      (nhds 0) := by
    apply Filter.Tendsto.congr' _ tendsto_const_nhds
    filter_upwards [self_mem_nhdsWithin] with x hx
    exact (azimuthalAverage_zero_of_small (by rw [abs_of_pos hx.1]; exact hx.2)).symm
  haveI hne : (nhdsWithin (0.001 : ℝ) (Set.Ioo (0 : ℝ) 0.001)).NeBot := by
    apply mem_closure_iff_nhdsWithin_neBot.mp
    rw [closure_Ioo (by norm_num : (0 : ℝ) ≠ 0.001)]
    exact ⟨by norm_num, le_refl _⟩
  exact (ne_of_lt azimuthalAverage_milli_pos) (tendsto_nhds_unique h2 h1)

/-- C6 counterexample: the claim asserts that the azimuthal average is
continuous and monotonically increasing on the open interval (0, 1), but
the function is not even continuous there: it is 0 on the whole segment
(0, 0.001) and strictly positive at 0.001. -/
theorem azimuthalAverage_not_continuous_counterexample :
    ¬ ContinuousOn azimuthalAverage (Set.Ioo (0 : ℝ) 1) :=
  azimuthalAverage_not_contOn

/-- C6 amended: azimuthalAverage(0) = 0 and azimuthalAverage saturates to
1.0 for every position of absolute value at least 0.999 including up to
1.0, but on (0, 1) the function is 0 below 0.001 and strictly positive at
0.001, hence not continuous on (0, 1). -/
theorem azimuthalAverage_edge_behavior :
    azimuthalAverage 0 = 0 ∧
    (∀ xi : ℝ, 0.999 ≤ |xi| → azimuthalAverage xi = 1.0) ∧
    (∀ xi : ℝ, |xi| < 0.001 → azimuthalAverage xi = 0) ∧
    0 < azimuthalAverage 0.001 ∧
    ¬ ContinuousOn azimuthalAverage (Set.Ioo (0 : ℝ) 1) := by
  refine ⟨?_, fun xi hxi => ?_, fun xi hxi => azimuthalAverage_zero_of_small hxi,
    azimuthalAverage_milli_pos, azimuthalAverage_not_contOn⟩
  · exact azimuthalAverage_zero_of_small (by rw [abs_zero]; norm_num)
  · unfold azimuthalAverage
    rw [if_pos hxi]

/-- Witness for C6 amended: the saturation clause applied at xi = 1, with
the central dead zone clause applied at xi = 0. -/
theorem azimuthalAverage_edge_behavior_witness :
    azimuthalAverage 1 = 1.0 ∧ azimuthalAverage 0 = 0 :=
  ⟨azimuthalAverage_edge_behavior.2.1 1 (by rw [abs_one]; norm_num),
    azimuthalAverage_edge_behavior.2.2.1 0 (by rw [abs_zero]; norm_num)⟩

/-- Positivity of the sine at one milliradian. -/
lemma sin_milli_pos : 0 < Real.sin 0.001 :=
  Real.sin_pos_of_pos_of_lt_pi (by norm_num) (by linarith [Real.pi_gt_d2])

/-- Upper bound on the sine at one milliradian. -/
lemma sin_milli_lt : Real.sin 0.001 < 0.001 := Real.sin_lt (by norm_num)

/-- Lower bound on the cosine at one milliradian. -/
lemma cos_milli_gt : (0.99 : ℝ) < Real.cos 0.001 := by
  have h : 1 - (0.001 : ℝ) ^ 2 / 2 ≤ Real.cos 0.001 := Real.one_sub_sq_div_two_le_cos
  nlinarith

/-- C3 counterexample: at theta = pi the code takes the far-side clamp and
returns R0 sqrt(3 pi) / sin(pi - 0.001), which differs from the closed
form R0 csc sqrt(3 (1 - theta cot(theta))) evaluated at the clamped angle
pi - 0.001; the two values differ by a factor of about 31. -/
theorem wilkinR_far_clamp_counterexample :
    wilkinR Real.pi 1 ≠ wilkinClosedForm (Real.pi - 0.001) 1 := by
  have hpi2 := Real.pi_gt_d2
  have hpi3 := Real.pi_lt_d2
  have hcode : wilkinR Real.pi 1 = Real.sqrt (3 * Real.pi) / Real.sin (Real.pi - 0.001) := by
    unfold wilkinR
    rw [if_neg (by push_neg; linarith), if_pos (by linarith), one_mul]
  have hclosed : wilkinClosedForm (Real.pi - 0.001) 1 =
      1 / Real.sin (Real.pi - 0.001) *
        Real.sqrt (3 * (1 - (Real.pi - 0.001) *
          (Real.cos (Real.pi - 0.001) / Real.sin (Real.pi - 0.001)))) := by
    unfold wilkinClosedForm
    rw [one_mul]
  have hs : Real.sin (Real.pi - 0.001) = Real.sin 0.001 := Real.sin_pi_sub 0.001
  have hc : Real.cos (Real.pi - 0.001) = -Real.cos 0.001 := Real.cos_pi_sub 0.001
  have hs0 := sin_milli_pos
  have hs1 := sin_milli_lt
  have hcos := cos_milli_gt
  have hcos1 : Real.cos 0.001 ≤ 1 := Real.cos_le_one _
  have hspos : 0 < Real.sin (Real.pi - 0.001) := by rw [hs]; exact hs0
  have key : Real.sqrt (3 * Real.pi) <
      Real.sqrt (3 * (1 - (Real.pi - 0.001) *
        (Real.cos (Real.pi - 0.001) / Real.sin (Real.pi - 0.001)))) := by
    apply Real.sqrt_lt_sqrt (by positivity)
    rw [hc, hs]
    have h1 : (3.1 : ℝ) < (Real.pi - 0.001) * Real.cos 0.001 := by nlinarith
    have h2 : (3100 : ℝ) < (Real.pi - 0.001) * Real.cos 0.001 / Real.sin 0.001 := by
      rw [lt_div_iff hs0]
      linarith
    have h3 : (Real.pi - 0.001) * (-Real.cos 0.001 / Real.sin 0.001) =
        -((Real.pi - 0.001) * Real.cos 0.001 / Real.sin 0.001) := by ring
    rw [h3]
    linarith
  rw [hcode, hclosed]
  apply ne_of_lt
  rw [one_div_mul_eq_div]
  exact div_lt_div_of_pos_right key hspos

/-- C3 amended: shockRadius returns R0 at or below the apex epsilon;
returns the fixed value R0 sqrt(3 pi) / sin(pi - 0.001) for every theta
at or beyond pi - 0.001, which is not the closed form evaluated at the
clamped angle; returns R0 on the interior branch when the expression
under the square root is negative; and agrees with the closed form
R0 csc(theta) sqrt(3 (1 - theta cot(theta))) on the rest of the
interior. -/
theorem wilkinR_branches (theta R0 : ℝ) :
    (theta ≤ 0.001 → wilkinR theta R0 = R0) ∧
    (¬ theta ≤ 0.001 → theta ≥ Real.pi - 0.001 →
      wilkinR theta R0 = R0 * Real.sqrt (3 * Real.pi) / Real.sin (Real.pi - 0.001)) ∧
    (¬ theta ≤ 0.001 → ¬ theta ≥ Real.pi - 0.001 →
      3 * (1 - theta * Real.cos theta / Real.sin theta) < 0 →
      wilkinR theta R0 = R0) ∧
    (¬ theta ≤ 0.001 → ¬ theta ≥ Real.pi - 0.001 →
      0 ≤ 3 * (1 - theta * Real.cos theta / Real.sin theta) →
      wilkinR theta R0 = wilkinClosedForm theta R0) := by
  refine ⟨fun h => ?_, fun h1 h2 => ?_, fun h1 h2 h3 => ?_, fun h1 h2 h3 => ?_⟩
  · unfold wilkinR
    rw [if_pos h]
  · unfold wilkinR
    rw [if_neg h1, if_pos h2]
  · unfold wilkinR
    rw [if_neg h1, if_neg h2]
    dsimp only
    rw [if_pos h3]
  · unfold wilkinR wilkinClosedForm
    rw [if_neg h1, if_neg h2]
    dsimp only
    rw [if_neg (by push_neg; exact h3), mul_div_assoc]

/-- Witness for C3 amended: the apex branch at theta = 0.0005 and the
far-side clamp at theta = pi. -/
theorem wilkinR_branches_witness :
    wilkinR 0.0005 3 = 3 ∧
    wilkinR Real.pi 3 = 3 * Real.sqrt (3 * Real.pi) / Real.sin (Real.pi - 0.001) :=
  ⟨(wilkinR_branches 0.0005 3).1 (by norm_num),
    (wilkinR_branches Real.pi 3).2.1 (by push_neg; linarith [Real.pi_gt_d2])
      (by linarith)⟩

end BlackHoleSim
